import Mathlib

/-! Shallow embedding of the session-aware process supervisor in
`src/it_agent/service.py` (class `OCPHelpdeskService`): the stop event
`hWaitStop`, the tracked child attributes `child_process` / `child_pid`,
and the methods `_launch_in_session`, `_is_process_alive`, `_kill_child`,
`_get_active_session`, `_wait`, `SvcStop`, and one cycle of the
`_main_loop` while-body.  OS behaviour (which win32 call raises, handle
values, pids, session ids, wait outcomes) is supplied through explicit
oracle parameters; machine handles are naturals. -/

namespace ITAgent

/-- OS handles, modelled as naturals. -/
abbrev Handle := Nat

/-! Win32 event objects.  `win32event.CreateEvent(None, 0, 0, None)` in
`OCPHelpdeskService.__init__` passes `bManualReset = 0` and
`bInitialState = 0`, so the service's stop event is an auto-reset event
that starts nonsignaled. -/

structure Event where
  manualReset : Bool
  signaled : Bool
deriving DecidableEq

inductive WaitOutcome
  | WAIT_OBJECT_0
  | WAIT_TIMEOUT
deriving DecidableEq

/-- `win32event.CreateEvent(None, bManualReset, bInitialState, None)`. -/
def CreateEvent (bManualReset bInitialState : Bool) : Event :=
  { manualReset := bManualReset, signaled := bInitialState }

/-- `win32event.SetEvent`. -/
def SetEvent (e : Event) : Event :=
  { e with signaled := true }

/-- `win32event.WaitForSingleObject` on an event with a finite timeout.
`setDuring` models a concurrent `SetEvent` arriving while the wait is in
progress.  Observing a signaled auto-reset event resets it; a
manual-reset event stays signaled.  If the event never becomes signaled
the wait elapses its timeout and returns `WAIT_TIMEOUT`. -/
def waitForSingleObject (e : Event) (setDuring : Bool) : WaitOutcome × Event :=
  let e1 := if setDuring then SetEvent e else e
  if e1.signaled then
    (WaitOutcome.WAIT_OBJECT_0,
     if e1.manualReset then e1 else { e1 with signaled := false })
  else
    (WaitOutcome.WAIT_TIMEOUT, e1)

/-- The stop event as created in `__init__`:
`self.hWaitStop = win32event.CreateEvent(None, 0, 0, None)`. -/
def hWaitStopInit : Event := CreateEvent false false

/-! The tracked child.  `__init__` sets `self.child_process = None`;
`self.child_pid` is only ever assigned inside `_launch_in_session`
(modelled as `none` while unset). -/

structure ChildState where
  child_process : Option Handle
  child_pid : Option Nat
deriving DecidableEq

/-! `_launch_in_session`.  The try-block performs, in order:
`WTSQueryUserToken` (acquires `hToken`), `DuplicateTokenEx` (acquires
`hTokenDup`), `CreateEnvironmentBlock`, `CreateProcessAsUser` (acquires
`hProcess` and `hThread`), then assigns `self.child_process` and
`self.child_pid` and logs, then closes `hThread`, then `hToken`, then
`hTokenDup`, and returns `True`.  Any `pywintypes.error` or `Exception`
is caught by the two `except` clauses, which only log and return
`False` without closing any further handle.  `LaunchStep` names which
call, if any, raises; the three post-creation `CloseHandle` calls are
distinct raise points, each leaving the earlier closes done and
skipping the later ones (a raising post-creation log call behaves like
`closeThreadFail`: assignments done, nothing closed yet). -/

inductive LaunchStep
  | tokenFail
  | dupFail
  | envFail
  | createFail
  | closeThreadFail
  | closeTokenFail
  | closeDupFail
  | ok
deriving DecidableEq

/-- Failure steps at or before `CreateProcessAsUser`. -/
def preCreationFail : LaunchStep → Bool
  | LaunchStep.tokenFail => true
  | LaunchStep.dupFail => true
  | LaunchStep.envFail => true
  | LaunchStep.createFail => true
  | _ => false

/-- Raise points after `CreateProcessAsUser` succeeded (the three
`CloseHandle` calls inside the try-block). -/
def postCreationFail : LaunchStep → Bool
  | LaunchStep.closeThreadFail => true
  | LaunchStep.closeTokenFail => true
  | LaunchStep.closeDupFail => true
  | _ => false

inductive HandleEvent
  | acquire (h : Handle)
  | release (h : Handle)
deriving DecidableEq

/-- Oracle for one launch attempt: which step raises, and the concrete
handle values and pid the OS would hand back. -/
structure LaunchOs where
  step : LaunchStep
  hToken : Handle
  hTokenDup : Handle
  hProcess : Handle
  hThread : Handle
  dwPid : Nat
deriving DecidableEq

/-- One execution of `_launch_in_session`: returns the boolean result,
the child attributes after the call, and the trace of handle
acquisitions and releases the call performed.  `sid` is the
`session_id` argument; it is consumed by `WTSQueryUserToken` and the log
lines only. -/
def _launch_in_session (st : ChildState) (os : LaunchOs) (sid : Nat) :
    Bool × ChildState × List HandleEvent :=
  match os.step with
  | LaunchStep.tokenFail =>
      (false, st, [])
  | LaunchStep.dupFail =>
      (false, st, [HandleEvent.acquire os.hToken])
  | LaunchStep.envFail =>
      (false, st, [HandleEvent.acquire os.hToken, HandleEvent.acquire os.hTokenDup])
  | LaunchStep.createFail =>
      (false, st, [HandleEvent.acquire os.hToken, HandleEvent.acquire os.hTokenDup])
  | LaunchStep.closeThreadFail =>
      (false,
       { child_process := some os.hProcess, child_pid := some os.dwPid },
       [HandleEvent.acquire os.hToken, HandleEvent.acquire os.hTokenDup,
        HandleEvent.acquire os.hProcess, HandleEvent.acquire os.hThread])
  | LaunchStep.closeTokenFail =>
      (false,
       { child_process := some os.hProcess, child_pid := some os.dwPid },
       [HandleEvent.acquire os.hToken, HandleEvent.acquire os.hTokenDup,
        HandleEvent.acquire os.hProcess, HandleEvent.acquire os.hThread,
        HandleEvent.release os.hThread])
  | LaunchStep.closeDupFail =>
      (false,
       { child_process := some os.hProcess, child_pid := some os.dwPid },
       [HandleEvent.acquire os.hToken, HandleEvent.acquire os.hTokenDup,
        HandleEvent.acquire os.hProcess, HandleEvent.acquire os.hThread,
        HandleEvent.release os.hThread, HandleEvent.release os.hToken])
  | LaunchStep.ok =>
      (true,
       { child_process := some os.hProcess, child_pid := some os.dwPid },
       [HandleEvent.acquire os.hToken, HandleEvent.acquire os.hTokenDup,
        HandleEvent.acquire os.hProcess, HandleEvent.acquire os.hThread,
        HandleEvent.release os.hThread, HandleEvent.release os.hToken,
        HandleEvent.release os.hTokenDup])

/-- Number of times handle `h` is acquired in a trace. -/
def acquireCount (tr : List HandleEvent) (h : Handle) : Nat :=
  (tr.filter fun e => e = HandleEvent.acquire h).length

/-- Number of times handle `h` is released in a trace. -/
def releaseCount (tr : List HandleEvent) (h : Handle) : Nat :=
  (tr.filter fun e => e = HandleEvent.release h).length

/-- Number of release events of any handle in a trace. -/
def totalReleases (tr : List HandleEvent) : Nat :=
  (tr.filter fun e => match e with
    | HandleEvent.release _ => true
    | HandleEvent.acquire _ => false).length

/-! `_is_process_alive`: returns `False` when `self.child_process` is
unset; otherwise calls `WaitForSingleObject(child, 0)` and reports alive
exactly when the result is `WAIT_TIMEOUT`; a raising call is caught and
reported as `False`. -/

inductive AliveProbe
  | timeout
  | exited
  | raises
deriving DecidableEq

def _is_process_alive (st : ChildState) (probe : AliveProbe) : Bool :=
  match st.child_process with
  | none => false
  | some _ =>
      match probe with
      | AliveProbe.timeout => true
      | AliveProbe.exited => false
      | AliveProbe.raises => false

/-! `_kill_child`.  When `self.child_process` is set it runs a try-block:
if `_is_process_alive()` then `TerminateProcess` (which may raise) and,
only if that returned, `CloseHandle` (which may raise); any exception is
caught, logged and swallowed.  After the try/except it always clears
`self.child_process = None` (and never touches `self.child_pid`). -/

structure KillOs where
  probe : AliveProbe
  terminateRaises : Bool
  closeRaises : Bool
deriving DecidableEq

inductive KillEvent
  | livenessCheck
  | terminated
  | released (h : Handle)
deriving DecidableEq

def _kill_child (st : ChildState) (os : KillOs) : ChildState × List KillEvent :=
  match st.child_process with
  | none => (st, [])
  | some hProc =>
      if _is_process_alive st os.probe then
        if os.terminateRaises then
          ({ st with child_process := none }, [KillEvent.livenessCheck])
        else if os.closeRaises then
          ({ st with child_process := none },
           [KillEvent.livenessCheck, KillEvent.terminated])
        else
          ({ st with child_process := none },
           [KillEvent.livenessCheck, KillEvent.terminated, KillEvent.released hProc])
      else
        if os.closeRaises then
          ({ st with child_process := none }, [KillEvent.livenessCheck])
        else
          ({ st with child_process := none },
           [KillEvent.livenessCheck, KillEvent.released hProc])

/-- Number of times handle `h` is released in a `_kill_child` trace. -/
def killReleaseCount (tr : List KillEvent) (h : Handle) : Nat :=
  (tr.filter fun e => e = KillEvent.released h).length

/-- Number of liveness checks in a `_kill_child` trace. -/
def killCheckCount (tr : List KillEvent) : Nat :=
  (tr.filter fun e => e = KillEvent.livenessCheck).length

/-- `_get_active_session`: `WTSGetActiveConsoleSessionId` returns
`osValue` (or raises when `raisesErr`); the sentinel `0xFFFFFFFF` and any
exception are both mapped to `None`. -/
def _get_active_session (osValue : Nat) (raisesErr : Bool) : Option Nat :=
  if raisesErr then none
  else if osValue = 0xFFFFFFFF then none
  else some osValue

/-! The service object and the supervisor loop. -/

structure SvcState where
  is_alive : Bool
  hWaitStop : Event
  child : ChildState
deriving DecidableEq

/-- The state established by `__init__`. -/
def initState : SvcState :=
  { is_alive := true
    hWaitStop := hWaitStopInit
    child := { child_process := none, child_pid := none } }

/-- `_wait(seconds)`: waits on `hWaitStop` with the given timeout and
returns whether the wait result is `WAIT_OBJECT_0`.  The timeout length
does not affect which outcome is possible in this model, only how long a
`WAIT_TIMEOUT` takes, so it is not a parameter. -/
def _wait (e : Event) (setDuring : Bool) : Bool × Event :=
  match waitForSingleObject e setDuring with
  | (WaitOutcome.WAIT_OBJECT_0, e1) => (true, e1)
  | (WaitOutcome.WAIT_TIMEOUT, e1) => (false, e1)

/-- `SvcStop`: clears `is_alive`, calls `_kill_child`, then
`SetEvent(hWaitStop)`. -/
def SvcStop (st : SvcState) (os : KillOs) : SvcState :=
  { is_alive := false
    hWaitStop := SetEvent st.hWaitStop
    child := (_kill_child st.child os).1 }

/-- The three wait lengths used by `_main_loop`: SESSION_WAIT = 10,
POLL_INTERVAL = 3, RESTART_DELAY = 5 seconds. -/
inductive WaitKind
  | sessionWait
  | pollInterval
  | restartDelay
deriving DecidableEq

/-- Observable actions of one loop cycle. -/
inductive Action
  | checkedAlive
  | launched (sid : Nat)
  | waited (k : WaitKind)
deriving DecidableEq

/-- Per-cycle oracle: the OS session value and whether the query raises,
the liveness probe outcome, the launch oracle, and whether a concurrent
`SvcStop` signals the stop event during this cycle's wait. -/
structure CycleEnv where
  wtsSession : Nat
  sessionRaises : Bool
  probe : AliveProbe
  launch : LaunchOs
  stopDuringWait : Bool
deriving DecidableEq

/-- `if self._wait(X): break` followed by `continue`: `none` means the
loop breaks out, `some` carries the state at the next iteration. -/
def afterWait (st : SvcState) (setDuring : Bool) (tr : List Action) :
    Option SvcState × List Action :=
  match _wait st.hWaitStop setDuring with
  | (true, _) => (none, tr)
  | (false, e1) => (some { st with hWaitStop := e1 }, tr)

/-- The pre-wait part of one execution of the `while self.is_alive`
body of `_main_loop`: resolve the session (choosing the SESSION_WAIT
delay when `None`); if a child is tracked and observed alive, choose
the POLL_INTERVAL delay; otherwise attempt `_launch_in_session`,
choosing RESTART_DELAY on failure and POLL_INTERVAL on success.
Returns the state reached just before the branch's wait, the wait
length that branch uses, and the actions performed so far. -/
def cycleBody (st : SvcState) (env : CycleEnv) : SvcState × WaitKind × List Action :=
  match _get_active_session env.wtsSession env.sessionRaises with
  | none => (st, WaitKind.sessionWait, [])
  | some sid =>
      if st.child.child_process.isSome && _is_process_alive st.child env.probe then
        (st, WaitKind.pollInterval, [Action.checkedAlive])
      else
        let pre : List Action :=
          if st.child.child_process.isSome then [Action.checkedAlive] else []
        match _launch_in_session st.child env.launch sid with
        | (true, child1, _) =>
            ({ st with child := child1 }, WaitKind.pollInterval,
             pre ++ [Action.launched sid])
        | (false, child1, _) =>
            ({ st with child := child1 }, WaitKind.restartDelay,
             pre ++ [Action.launched sid])

/-- One execution of the `while self.is_alive` body of `_main_loop`.
Every branch of the body ends in exactly one delay, and each delay is
`if self._wait(X): break` on the stop event — never a plain
`time.sleep` — so the cycle is the pre-wait part followed by a single
`afterWait`. -/
def loopCycle (st : SvcState) (env : CycleEnv) : Option SvcState × List Action :=
  afterWait (cycleBody st env).1 env.stopDuringWait
    ((cycleBody st env).2.2 ++ [Action.waited (cycleBody st env).2.1])

/-- Iterated loop cycles, honouring the `while self.is_alive` head
check; `none` means the loop has exited within the given cycles. -/
def runCycles : SvcState → List CycleEnv → Option SvcState
  | st, [] => some st
  | st, env :: rest =>
      if st.is_alive then
        match (loopCycle st env).1 with
        | none => none
        | some st1 => runCycles st1 rest
      else none

/-- Number of tracked child records (the loop state has a single
optional `child_process` slot). -/
def trackedCount (st : SvcState) : Nat :=
  st.child.child_process.toList.length

/-- Number of launch attempts in a cycle trace. -/
def launchCount (tr : List Action) : Nat :=
  (tr.filter fun a => match a with
    | Action.launched _ => true
    | _ => false).length

/-- Number of waits in a cycle trace. -/
def waitCount (tr : List Action) : Nat :=
  (tr.filter fun a => match a with
    | Action.waited _ => true
    | _ => false).length

/-! Concrete instances used to evaluate the definitions. -/

/-- The child attributes as left by `__init__`. -/
def childInit : ChildState := { child_process := none, child_pid := none }

/-- A launch oracle on which every OS call succeeds. -/
def osLaunchOk : LaunchOs :=
  { step := LaunchStep.ok, hToken := 10, hTokenDup := 11,
    hProcess := 12, hThread := 13, dwPid := 99 }

/-- `DuplicateTokenEx` raises after `WTSQueryUserToken` succeeded. -/
def osLaunchDupFail : LaunchOs := { osLaunchOk with step := LaunchStep.dupFail }

/-- `CreateProcessAsUser` raises. -/
def osLaunchCreateFail : LaunchOs := { osLaunchOk with step := LaunchStep.createFail }

/-- The first post-creation `CloseHandle` (on `hThread`) raises, after
the child attributes were assigned. -/
def osLaunchCloseThreadFail : LaunchOs :=
  { osLaunchOk with step := LaunchStep.closeThreadFail }

/-- The second post-creation `CloseHandle` (on `hToken`) raises, after
`hThread` was already closed. -/
def osLaunchCloseTokenFail : LaunchOs :=
  { osLaunchOk with step := LaunchStep.closeTokenFail }

/-- A running service tracking a child with handle 5 and pid 42. -/
def stStale : SvcState :=
  { is_alive := true
    hWaitStop := hWaitStopInit
    child := { child_process := some 5, child_pid := some 42 } }

/-- The state after one successful launch from `initState` under
`envLaunchOk`. -/
def stAfterLaunch : SvcState :=
  { is_alive := true
    hWaitStop := hWaitStopInit
    child := { child_process := some 12, child_pid := some 99 } }

/-- Session 1 active, tracked child observed exited, relaunch fails at
process creation, no stop request. -/
def envDeadChild : CycleEnv :=
  { wtsSession := 1, sessionRaises := false, probe := AliveProbe.exited,
    launch := osLaunchCreateFail, stopDuringWait := false }

/-- The session query raises (resolved as no active session). -/
def envNoSession : CycleEnv :=
  { wtsSession := 0, sessionRaises := true, probe := AliveProbe.raises,
    launch := osLaunchCreateFail, stopDuringWait := false }

/-- Session 1 active, launch succeeds, no stop request. -/
def envLaunchOk : CycleEnv :=
  { wtsSession := 1, sessionRaises := false, probe := AliveProbe.timeout,
    launch := osLaunchOk, stopDuringWait := false }

/-- A stop request arrives during this cycle's wait. -/
def envStopReq : CycleEnv := { envLaunchOk with stopDuringWait := true }

/-- Child alive, `TerminateProcess` raises, `CloseHandle` would succeed. -/
def killOsTermRaises : KillOs :=
  { probe := AliveProbe.timeout, terminateRaises := true, closeRaises := false }

/-- Child alive and both OS calls succeed. -/
def killOsClean : KillOs :=
  { probe := AliveProbe.timeout, terminateRaises := false, closeRaises := false }

end ITAgent

namespace ITAgent

/-! Helper lemmas about waits and one loop cycle. -/

theorem wait_not_signaled (e : Event) (hs : e.signaled = false) :
    _wait e false = (false, e) := by
  simp [_wait, waitForSingleObject, hs]

theorem wait_observes (e : Event) (b : Bool) (hs : b = true ∨ e.signaled = true) :
    (_wait e b).1 = true := by
  cases b with
  | true => simp [_wait, waitForSingleObject, SetEvent]
  | false =>
      rcases hs with h | h
      · exact absurd h (by simp)
      · simp [_wait, waitForSingleObject, h]

theorem afterWait_trace (st : SvcState) (b : Bool) (tr : List Action) :
    (afterWait st b tr).2 = tr := by
  rcases hw : _wait st.hWaitStop b with ⟨b1, e1⟩
  cases b1 <;> simp [afterWait, hw]

theorem afterWait_no_stop (st : SvcState) (tr : List Action)
    (hs : st.hWaitStop.signaled = false) :
    afterWait st false tr = (some st, tr) := by
  simp [afterWait, wait_not_signaled st.hWaitStop hs]

theorem afterWait_stop (st : SvcState) (b : Bool) (tr : List Action)
    (hs : b = true ∨ st.hWaitStop.signaled = true) :
    (afterWait st b tr).1 = none := by
  have h := wait_observes st.hWaitStop b hs
  rcases hw : _wait st.hWaitStop b with ⟨b1, e1⟩
  rw [hw] at h
  simp at h
  subst h
  simp [afterWait, hw]

theorem cycleBody_frame (st : SvcState) (env : CycleEnv) :
    (cycleBody st env).1.is_alive = st.is_alive ∧
    (cycleBody st env).1.hWaitStop = st.hWaitStop := by
  cases hses : _get_active_session env.wtsSession env.sessionRaises with
  | none => simp [cycleBody, hses]
  | some sid =>
      by_cases hc : st.child.child_process.isSome && _is_process_alive st.child env.probe
      · simp [cycleBody, hses, hc]
      · rcases hl : _launch_in_session st.child env.launch sid with ⟨b, child1, evs⟩
        cases b <;> simp [cycleBody, hses, hc, hl]

theorem loopCycle_trace (st : SvcState) (env : CycleEnv) :
    (loopCycle st env).2 =
      (cycleBody st env).2.2 ++ [Action.waited (cycleBody st env).2.1] := by
  unfold loopCycle
  exact afterWait_trace _ _ _

theorem loopCycle_no_stop (st : SvcState) (env : CycleEnv)
    (hw : env.stopDuringWait = false) (hs : st.hWaitStop.signaled = false) :
    (loopCycle st env).1 = some (cycleBody st env).1 := by
  have hs1 : (cycleBody st env).1.hWaitStop.signaled = false := by
    rw [(cycleBody_frame st env).2]; exact hs
  unfold loopCycle
  rw [hw, afterWait_no_stop _ _ hs1]

theorem loopCycle_stop_exit (st : SvcState) (env : CycleEnv)
    (hstop : env.stopDuringWait = true ∨ st.hWaitStop.signaled = true) :
    (loopCycle st env).1 = none := by
  unfold loopCycle
  apply afterWait_stop
  rcases hstop with h | h
  · exact Or.inl h
  · exact Or.inr (by rw [(cycleBody_frame st env).2]; exact h)

theorem loopCycle_some_child (st : SvcState) (env : CycleEnv) (st1 : SvcState)
    (h : (loopCycle st env).1 = some st1) :
    st1.child = (cycleBody st env).1.child := by
  unfold loopCycle afterWait at h
  rcases hw : _wait (cycleBody st env).1.hWaitStop env.stopDuringWait with ⟨b, e1⟩
  rw [hw] at h
  cases b with
  | true => simp at h
  | false =>
      simp only [Option.some.injEq] at h
      rw [← h]

/-! Claim C4. -/

/-- C4, counterexample: the stop event `hWaitStop` is created with
`bManualReset = 0`, i.e. auto-reset, so it does not stay set forever:
after `SetEvent`, the first wait observes it (`WAIT_OBJECT_0`) but
resets it, and a subsequent wait with any timeout returns
`WAIT_TIMEOUT` (blocks for the full timeout) instead of returning
early. -/
theorem stop_event_not_monotonic :
    (waitForSingleObject (SetEvent hWaitStopInit) false).1 = WaitOutcome.WAIT_OBJECT_0 ∧
    (waitForSingleObject (SetEvent hWaitStopInit) false).2.signaled = false ∧
    (waitForSingleObject (waitForSingleObject (SetEvent hWaitStopInit) false).2 false).1 =
      WaitOutcome.WAIT_TIMEOUT := by
  decide

/-- C4 (amended): setting the stop event is idempotent and it stays set
until some wait observes it; the first wait on the set event returns
early; but the event is auto-reset (`CreateEvent(None, 0, 0, None)`),
so that observing wait resets it and a further wait without another set
times out rather than returning early. -/
theorem stop_event_auto_reset (e : Event)
    (hm : e.manualReset = false) (hs : e.signaled = true) :
    SetEvent (SetEvent e) = SetEvent e ∧
    (SetEvent e).signaled = true ∧
    (waitForSingleObject e false).1 = WaitOutcome.WAIT_OBJECT_0 ∧
    (waitForSingleObject e false).2.signaled = false ∧
    (waitForSingleObject (waitForSingleObject e false).2 false).1 =
      WaitOutcome.WAIT_TIMEOUT ∧
    hWaitStopInit.manualReset = false ∧ hWaitStopInit.signaled = false := by
  rcases e with ⟨m, s⟩
  simp only at hm hs
  subst hm; subst hs
  exact ⟨rfl, rfl, rfl, rfl, rfl, rfl, rfl⟩

/-- C4, witness: the amended statement evaluated on the freshly set
stop event. -/
theorem stop_event_auto_reset_witness :
    SetEvent (SetEvent (SetEvent hWaitStopInit)) = SetEvent (SetEvent hWaitStopInit) ∧
    (SetEvent (SetEvent hWaitStopInit)).signaled = true ∧
    (waitForSingleObject (SetEvent hWaitStopInit) false).1 = WaitOutcome.WAIT_OBJECT_0 ∧
    (waitForSingleObject (SetEvent hWaitStopInit) false).2.signaled = false ∧
    (waitForSingleObject (waitForSingleObject (SetEvent hWaitStopInit) false).2 false).1 =
      WaitOutcome.WAIT_TIMEOUT ∧
    hWaitStopInit.manualReset = false ∧ hWaitStopInit.signaled = false :=
  stop_event_auto_reset (SetEvent hWaitStopInit) rfl rfl

/-! Claim C6. -/

/-- C6, counterexample: `_launch_in_session` records only
`self.child_process` and `self.child_pid`; launching into session 7 and
into session 9 under identical OS behaviour produces identical tracked
records, so the record cannot carry the SessionId it was launched into
(nor a launch timestamp): no such fields exist. -/
theorem child_record_lacks_session :
    (_launch_in_session childInit osLaunchOk 7).2.1 =
      (_launch_in_session childInit osLaunchOk 9).2.1 ∧
    (7 : Nat) ≠ 9 := by
  decide

/-- C6 (amended): when the launch succeeds the supervisor is left
tracking a running child, but the record consists of exactly the new
process handle and its pid; no session id and no launch timestamp are
stored. -/
theorem launch_success_state (st : ChildState) (os : LaunchOs) (sid : Nat)
    (hok : os.step = LaunchStep.ok) :
    (_launch_in_session st os sid).1 = true ∧
    (_launch_in_session st os sid).2.1 =
      { child_process := some os.hProcess, child_pid := some os.dwPid } ∧
    ((_launch_in_session st os sid).2.1).child_process.isSome = true := by
  simp [_launch_in_session, hok]

/-- C6, witness: a successful launch into session 7 yields the record
holding handle 12 and pid 99. -/
theorem launch_success_state_witness :
    (_launch_in_session childInit osLaunchOk 7).1 = true ∧
    (_launch_in_session childInit osLaunchOk 7).2.1 =
      { child_process := some osLaunchOk.hProcess, child_pid := some osLaunchOk.dwPid } ∧
    ((_launch_in_session childInit osLaunchOk 7).2.1).child_process.isSome = true :=
  launch_success_state childInit osLaunchOk 7 rfl

/-! Claim C9. -/

/-- C9, counterexample: if an OS call raises after `CreateProcessAsUser`
succeeded (the post-creation `CloseHandle` and log calls are inside the
same try-block, after `self.child_process` and `self.child_pid` were
assigned), `_launch_in_session` returns `False` yet the tracked child
state has already been replaced, contradicting the claim that a `False`
return leaves `child_process` and `child_pid` unchanged on every
failure point. -/
theorem launch_cleanup_failure_mutates :
    (_launch_in_session stStale.child osLaunchCloseThreadFail 1).1 = false ∧
    (_launch_in_session stStale.child osLaunchCloseThreadFail 1).2.1 ≠ stStale.child := by
  decide

/-- C9 (amended): when `_launch_in_session` fails at or before process
creation (token acquisition, token duplication, environment block, or
`CreateProcessAsUser` itself) it returns `False` with `child_process`
and `child_pid` exactly as they were; but when a failure occurs after
process creation — at any of the three post-creation `CloseHandle`
calls — it returns `False` with the tracked state already updated to
the new child's handle and pid. -/
theorem launch_failure_state (st : ChildState) (os : LaunchOs) (sid : Nat) :
    (preCreationFail os.step = true →
      (_launch_in_session st os sid).1 = false ∧
      (_launch_in_session st os sid).2.1 = st) ∧
    (postCreationFail os.step = true →
      (_launch_in_session st os sid).1 = false ∧
      (_launch_in_session st os sid).2.1 =
        { child_process := some os.hProcess, child_pid := some os.dwPid }) := by
  cases h : os.step <;> simp [_launch_in_session, preCreationFail, postCreationFail, h]

/-- C9, witness: the amended statement evaluated on a failing
`CreateProcessAsUser` and on a failing first post-creation
`CloseHandle`. -/
theorem launch_failure_state_witness :
    ((_launch_in_session stStale.child osLaunchCreateFail 1).1 = false ∧
      (_launch_in_session stStale.child osLaunchCreateFail 1).2.1 = stStale.child) ∧
    ((_launch_in_session stStale.child osLaunchCloseThreadFail 1).1 = false ∧
      (_launch_in_session stStale.child osLaunchCloseThreadFail 1).2.1 =
        { child_process := some osLaunchCloseThreadFail.hProcess,
          child_pid := some osLaunchCloseThreadFail.dwPid }) :=
  ⟨(launch_failure_state stStale.child osLaunchCreateFail 1).1 (by decide),
   (launch_failure_state stStale.child osLaunchCloseThreadFail 1).2 (by decide)⟩

/-! Claim C2. -/

/-- C2, counterexample: when `DuplicateTokenEx` raises, the `except`
clauses of `_launch_in_session` only log and return `False`; the
already acquired user token is acquired once but released zero times on
this path, contradicting release-exactly-once on every path. -/
theorem launch_failure_leaks_token :
    (_launch_in_session childInit osLaunchDupFail 1).1 = false ∧
    acquireCount (_launch_in_session childInit osLaunchDupFail 1).2.2
      osLaunchDupFail.hToken = 1 ∧
    releaseCount (_launch_in_session childInit osLaunchDupFail 1).2.2
      osLaunchDupFail.hToken = 0 := by
  decide

/-- C2 (amended): on the success path of `_launch_in_session` each
intermediate handle (original token, duplicated token, new thread
handle) is released exactly once and the new process handle is acquired
once and retained unreleased.  On a failure at or before process
creation the `except` clauses release nothing at all.  On a failure at
one of the three post-creation `CloseHandle` calls, the closes already
performed stand and the raising close together with the ones after it
are skipped: a raise at the first close releases nothing, a raise at
the second leaves the token and duplicated token unreleased, a raise at
the third leaves the duplicated token unreleased.  In particular, on
every failure path at least the duplicated token handle (when acquired)
is never released, so release-exactly-once fails on each of them. -/
theorem launch_handle_discipline (st : ChildState) (os : LaunchOs) (sid : Nat)
    (h12 : os.hToken ≠ os.hTokenDup) (h13 : os.hToken ≠ os.hThread)
    (h14 : os.hToken ≠ os.hProcess) (h23 : os.hTokenDup ≠ os.hThread)
    (h24 : os.hTokenDup ≠ os.hProcess) (h34 : os.hThread ≠ os.hProcess) :
    (os.step = LaunchStep.ok →
      releaseCount (_launch_in_session st os sid).2.2 os.hToken = 1 ∧
      releaseCount (_launch_in_session st os sid).2.2 os.hTokenDup = 1 ∧
      releaseCount (_launch_in_session st os sid).2.2 os.hThread = 1 ∧
      acquireCount (_launch_in_session st os sid).2.2 os.hProcess = 1 ∧
      releaseCount (_launch_in_session st os sid).2.2 os.hProcess = 0) ∧
    (preCreationFail os.step = true →
      totalReleases (_launch_in_session st os sid).2.2 = 0) ∧
    (os.step = LaunchStep.closeThreadFail →
      totalReleases (_launch_in_session st os sid).2.2 = 0) ∧
    (os.step = LaunchStep.closeTokenFail →
      releaseCount (_launch_in_session st os sid).2.2 os.hThread = 1 ∧
      releaseCount (_launch_in_session st os sid).2.2 os.hToken = 0 ∧
      releaseCount (_launch_in_session st os sid).2.2 os.hTokenDup = 0) ∧
    (os.step = LaunchStep.closeDupFail →
      releaseCount (_launch_in_session st os sid).2.2 os.hThread = 1 ∧
      releaseCount (_launch_in_session st os sid).2.2 os.hToken = 1 ∧
      releaseCount (_launch_in_session st os sid).2.2 os.hTokenDup = 0) ∧
    (os.step ≠ LaunchStep.ok →
      releaseCount (_launch_in_session st os sid).2.2 os.hTokenDup = 0) := by
  cases h : os.step <;>
    simp [_launch_in_session, h, preCreationFail, releaseCount, acquireCount,
      totalReleases, List.filter, h12, h13, h14, h23, h24, h34, Ne.symm h12,
      Ne.symm h13, Ne.symm h14, Ne.symm h23, Ne.symm h24, Ne.symm h34]

/-- C2, witness: the amended statement evaluated on a fully successful
launch, on a failing `DuplicateTokenEx`, and on a raise at the second
post-creation `CloseHandle` (thread handle already closed, both token
handles leaked). -/
theorem launch_handle_discipline_witness :
    (releaseCount (_launch_in_session childInit osLaunchOk 1).2.2 osLaunchOk.hToken = 1 ∧
     releaseCount (_launch_in_session childInit osLaunchOk 1).2.2 osLaunchOk.hTokenDup = 1 ∧
     releaseCount (_launch_in_session childInit osLaunchOk 1).2.2 osLaunchOk.hThread = 1 ∧
     acquireCount (_launch_in_session childInit osLaunchOk 1).2.2 osLaunchOk.hProcess = 1 ∧
     releaseCount (_launch_in_session childInit osLaunchOk 1).2.2 osLaunchOk.hProcess = 0) ∧
    totalReleases (_launch_in_session childInit osLaunchDupFail 1).2.2 = 0 ∧
    (releaseCount (_launch_in_session childInit osLaunchCloseTokenFail 1).2.2
        osLaunchCloseTokenFail.hThread = 1 ∧
     releaseCount (_launch_in_session childInit osLaunchCloseTokenFail 1).2.2
        osLaunchCloseTokenFail.hToken = 0 ∧
     releaseCount (_launch_in_session childInit osLaunchCloseTokenFail 1).2.2
        osLaunchCloseTokenFail.hTokenDup = 0) :=
  ⟨(launch_handle_discipline childInit osLaunchOk 1 (by decide) (by decide)
      (by decide) (by decide) (by decide) (by decide)).1 rfl,
   (launch_handle_discipline childInit osLaunchDupFail 1 (by decide) (by decide)
      (by decide) (by decide) (by decide) (by decide)).2.1 (by decide),
   (launch_handle_discipline childInit osLaunchCloseTokenFail 1 (by decide) (by decide)
      (by decide) (by decide) (by decide) (by decide)).2.2.2.1 rfl⟩

/-! Claim C7. -/

/-- C7, counterexample: `TerminateProcess` and `CloseHandle` sit in the
same try-block of `_kill_child`, so when `TerminateProcess` raises on a
live child the swallowed exception also skips `CloseHandle`: the
tracked handle is released zero times, not exactly once regardless of
outcome. -/
theorem kill_terminate_failure_skips_release :
    killReleaseCount (_kill_child stStale.child killOsTermRaises).2 5 = 0 ∧
    (_kill_child stStale.child killOsTermRaises).1.child_process = none := by
  decide

/-- C7 (amended): `_kill_child` never raises past its boundary (it is a
total function of the oracle: every internal failure is swallowed and
the record is cleared in all cases); calling it again on the same
service is a no-op performing no second liveness check; when neither
`TerminateProcess` nor `CloseHandle` raises, the tracked handle is
released exactly once whether or not the child was alive; but when one
of them raises, the swallowed failure leaves the handle unreleased. -/
theorem kill_child_clears (st : ChildState) (os : KillOs) :
    (_kill_child st os).1.child_process = none := by
  cases hc : st.child_process with
  | none => simp [_kill_child, hc]
  | some hp =>
      simp only [_kill_child, hc]
      split_ifs <;> simp

theorem kill_child_noop (st : ChildState) (os : KillOs) (hc : st.child_process = none) :
    _kill_child st os = (st, []) := by
  simp [_kill_child, hc]

/-- C7 (amended): `_kill_child` never raises past its boundary (it is a
total function of the OS oracle: every internal failure is swallowed
and the record is cleared in all cases); a second call on the same
service object is a no-op that performs no second liveness check; when
neither `TerminateProcess` nor `CloseHandle` raises, the tracked handle
is released exactly once whether or not the child was still alive; but
when one of them raises, the swallowed failure leaves the handle
unreleased. -/
theorem kill_child_swallows_and_idempotent (st : ChildState) (os os2 : KillOs) (h : Handle) :
    (_kill_child st os).1.child_process = none ∧
    _kill_child (_kill_child st os).1 os2 = ((_kill_child st os).1, []) ∧
    killCheckCount (_kill_child (_kill_child st os).1 os2).2 = 0 ∧
    (st.child_process = some h → os.terminateRaises = false → os.closeRaises = false →
      killReleaseCount (_kill_child st os).2 h = 1) := by
  have h1 := kill_child_clears st os
  have h2 := kill_child_noop (_kill_child st os).1 os2 h1
  refine ⟨h1, h2, by simp [h2, killCheckCount], ?_⟩
  intro hch hf1 hf2
  cases hp : os.probe <;>
    simp [_kill_child, hch, _is_process_alive, hp, hf1, hf2,
      killReleaseCount, List.filter]

/-- C7, witness: the amended statement evaluated on a live child with
handle 5 and both OS calls succeeding. -/
theorem kill_child_swallows_and_idempotent_witness :
    (_kill_child stStale.child killOsClean).1.child_process = none ∧
    _kill_child (_kill_child stStale.child killOsClean).1 killOsClean =
      ((_kill_child stStale.child killOsClean).1, []) ∧
    killCheckCount (_kill_child (_kill_child stStale.child killOsClean).1 killOsClean).2 = 0 ∧
    killReleaseCount (_kill_child stStale.child killOsClean).2 5 = 1 := by
  have h := kill_child_swallows_and_idempotent stStale.child killOsClean killOsClean 5
  exact ⟨h.1, h.2.1, h.2.2.1, h.2.2.2 (by decide) (by decide) (by decide)⟩

/-! Claim C1. -/

theorem launchCount_append (t1 t2 : List Action) :
    launchCount (t1 ++ t2) = launchCount t1 + launchCount t2 := by
  simp [launchCount, List.filter_append]

theorem waitCount_append (t1 t2 : List Action) :
    waitCount (t1 ++ t2) = waitCount t1 + waitCount t2 := by
  simp [waitCount, List.filter_append]

theorem cycleBody_launchCount (st : SvcState) (env : CycleEnv) :
    launchCount (cycleBody st env).2.2 ≤ 1 := by
  cases hses : _get_active_session env.wtsSession env.sessionRaises with
  | none => simp [cycleBody, hses, launchCount]
  | some sid =>
      by_cases hc : st.child.child_process.isSome && _is_process_alive st.child env.probe
      · simp [cycleBody, hses, hc, launchCount, List.filter]
      · rcases hl : _launch_in_session st.child env.launch sid with ⟨b, child1, evs⟩
        cases hal : _is_process_alive st.child env.probe <;>
          cases b <;> by_cases hp : st.child.child_process.isSome <;>
            simp_all [cycleBody, hses, hl, launchCount, List.filter,
              List.filter_append]

theorem launchCount_le_one (st : SvcState) (env : CycleEnv) :
    launchCount (loopCycle st env).2 ≤ 1 := by
  rw [loopCycle_trace, launchCount_append]
  have h2 : launchCount [Action.waited (cycleBody st env).2.1] = 0 := by
    simp [launchCount, List.filter]
  rw [h2]
  simpa using cycleBody_launchCount st env

theorem alive_no_launch (st : SvcState) (env : CycleEnv)
    (ha : _is_process_alive st.child env.probe = true) :
    launchCount (loopCycle st env).2 = 0 := by
  have hsome : st.child.child_process.isSome = true := by
    cases hc : st.child.child_process with
    | none => simp [_is_process_alive, hc] at ha
    | some hp => rfl
  rw [loopCycle_trace, launchCount_append]
  have h2 : launchCount [Action.waited (cycleBody st env).2.1] = 0 := by
    simp [launchCount, List.filter]
  rw [h2]
  cases hses : _get_active_session env.wtsSession env.sessionRaises with
  | none => simp [cycleBody, hses, launchCount]
  | some sid =>
      simp [cycleBody, hses, hsome, ha, launchCount, List.filter]

/-- C1: at any state reachable by running loop cycles from the
`__init__` state, at most one child record is tracked (the service has
the single optional `child_process` slot); moreover no cycle from such
a state attempts a launch while the tracked child is observed alive,
and no cycle attempts more than one launch — regardless of session
changes, launch outcomes, child exits, or stop requests in the
oracles. -/
theorem at_most_one_child_tracked (envs : List CycleEnv) (st1 : SvcState) (env : CycleEnv)
    (hreach : runCycles initState envs = some st1) :
    trackedCount st1 ≤ 1 ∧
    (_is_process_alive st1.child env.probe = true →
      launchCount (loopCycle st1 env).2 = 0) ∧
    launchCount (loopCycle st1 env).2 ≤ 1 := by
  refine ⟨?_, fun ha => alive_no_launch st1 env ha, launchCount_le_one st1 env⟩
  cases hc : st1.child.child_process <;> simp [trackedCount, hc]

/-- C1, witness: after the cycle that launches the child, exactly one
record is tracked and a cycle that observes it alive launches
nothing. -/
theorem at_most_one_child_tracked_witness :
    runCycles initState [envLaunchOk] = some stAfterLaunch ∧
    trackedCount stAfterLaunch ≤ 1 ∧
    (_is_process_alive stAfterLaunch.child envLaunchOk.probe = true →
      launchCount (loopCycle stAfterLaunch envLaunchOk).2 = 0) ∧
    launchCount (loopCycle stAfterLaunch envLaunchOk).2 ≤ 1 := by
  have h := at_most_one_child_tracked [envLaunchOk] stAfterLaunch envLaunchOk (by decide)
  exact ⟨by decide, h.1, h.2.1, h.2.2⟩

/-! Claim C3. -/

/-- C3: the `while self.is_alive` loop of `_main_loop` exits only on an
explicit stop request: as long as `is_alive` holds, the stop event is
unsignaled and no concurrent `SvcStop` signals it during a wait, any
sequence of cycles — including session-resolution failures, launch
failures at every step, and liveness-check failures — leaves the loop
still running. -/
theorem loop_exits_only_on_stop (st : SvcState) (envs : List CycleEnv)
    (ha : st.is_alive = true) (hs : st.hWaitStop.signaled = false)
    (hstop : envs.all (fun e => !e.stopDuringWait) = true) :
    (runCycles st envs).isSome = true := by
  have main : ∀ (l : List CycleEnv), (l.all fun e => !e.stopDuringWait) = true →
      ∀ (s : SvcState), s.is_alive = true → s.hWaitStop.signaled = false →
      (runCycles s l).isSome = true := by
    intro l
    induction l with
    | nil =>
        intro _ s _ _
        simp [runCycles]
    | cons e rest ih =>
        intro hall s ha1 hs1
        rw [List.all_cons, Bool.and_eq_true] at hall
        have he : e.stopDuringWait = false := by simpa using hall.1
        have hcyc := loopCycle_no_stop s e he hs1
        simp only [runCycles, ha1, if_true, hcyc]
        exact ih hall.2 _ ((cycleBody_frame s e).1.trans ha1)
          (by rw [(cycleBody_frame s e).2]; exact hs1)
  exact main envs hstop st ha hs

/-- C3, witness: three cycles exercising a raising session query, a
dead-child relaunch that fails at `CreateProcessAsUser`, and a
successful launch leave the loop running. -/
theorem loop_exits_only_on_stop_witness :
    initState.is_alive = true ∧ initState.hWaitStop.signaled = false ∧
    ([envNoSession, envDeadChild, envLaunchOk].all fun e => !e.stopDuringWait) = true ∧
    (runCycles initState [envNoSession, envDeadChild, envLaunchOk]).isSome = true :=
  ⟨rfl, rfl, by decide,
   loop_exits_only_on_stop initState [envNoSession, envDeadChild, envLaunchOk]
     rfl rfl (by decide)⟩

/-! Claim C5. -/

/-- C5, counterexample: a cycle in which the tracked child (handle 5)
is observed exited does not clear the record: the relaunch fails and
`child_process` is still handle 5 afterwards, although the claim says
the loop clears the record and releases the handle.  The trace shows
the liveness check followed directly by the relaunch attempt in the
same cycle. -/
theorem dead_child_record_not_cleared :
    ((loopCycle stStale envDeadChild).1.map fun s => s.child.child_process) =
      some (some 5) ∧
    (loopCycle stStale envDeadChild).2 =
      [Action.checkedAlive, Action.launched 1, Action.waited WaitKind.restartDelay] := by
  decide

/-- C5 (amended): when the poll observes the tracked child exited while
a session is active, the loop neither clears the record nor releases
its handle; it immediately attempts a relaunch in the same cycle (no
wait between the liveness check and the launch).  The stale record
survives unchanged when the relaunch fails at or before process
creation, and is overwritten by the new child's handle when the
relaunch succeeds. -/
theorem dead_child_relaunch_same_cycle (st : SvcState) (env : CycleEnv)
    (h : Handle) (s : Nat)
    (hchild : st.child.child_process = some h)
    (hses : _get_active_session env.wtsSession env.sessionRaises = some s)
    (hprobe : env.probe = AliveProbe.exited) :
    (loopCycle st env).2.take 2 = [Action.checkedAlive, Action.launched s] ∧
    (preCreationFail env.launch.step = true →
      ∀ st1, (loopCycle st env).1 = some st1 → st1.child.child_process = some h) ∧
    (env.launch.step = LaunchStep.ok →
      ∀ st1, (loopCycle st env).1 = some st1 →
        st1.child.child_process = some env.launch.hProcess) := by
  have halive : _is_process_alive st.child env.probe = false := by
    simp [_is_process_alive, hchild, hprobe]
  have hsome : st.child.child_process.isSome = true := by simp [hchild]
  have hcond : (st.child.child_process.isSome &&
      _is_process_alive st.child env.probe) = false := by
    simp [halive]
  refine ⟨?_, ?_, ?_⟩
  · rw [loopCycle_trace]
    cases hstep : env.launch.step <;>
      simp [cycleBody, hses, hcond, hsome, halive, _launch_in_session, hstep]
  · intro hne st1 h1
    have hc1 := loopCycle_some_child st env st1 h1
    cases hstep : env.launch.step <;>
      simp_all [cycleBody, hses, hcond, hsome, _launch_in_session, hchild,
        preCreationFail]
  · intro hok st1 h1
    have hc1 := loopCycle_some_child st env st1 h1
    simp_all [cycleBody, hses, hcond, hsome, _launch_in_session, hchild]

/-- C5, witness: the amended statement on the concrete exited child
with handle 5 whose relaunch fails at `CreateProcessAsUser`. -/
theorem dead_child_relaunch_same_cycle_witness :
    (loopCycle stStale envDeadChild).2.take 2 =
      [Action.checkedAlive, Action.launched 1] ∧
    stStale.child.child_process = some 5 := by
  have h := dead_child_relaunch_same_cycle stStale envDeadChild 5 1
    (by decide) (by decide) (by decide)
  exact ⟨h.1, h.2.1 (by decide) stStale (by decide)⟩

/-! Claim C8. -/

theorem cycleBody_no_wait (st : SvcState) (env : CycleEnv) :
    waitCount (cycleBody st env).2.2 = 0 := by
  cases hses : _get_active_session env.wtsSession env.sessionRaises with
  | none => simp [cycleBody, hses, waitCount]
  | some sid =>
      by_cases hc : st.child.child_process.isSome && _is_process_alive st.child env.probe
      · simp [cycleBody, hses, hc, waitCount, List.filter]
      · rcases hl : _launch_in_session st.child env.launch sid with ⟨b, child1, evs⟩
        cases hal : _is_process_alive st.child env.probe <;>
          cases b <;> by_cases hp : st.child.child_process.isSome <;>
            simp_all [cycleBody, hses, hl, waitCount, List.filter,
              List.filter_append]

/-- C8: every cycle of the loop performs exactly one delay and it is a
`_wait` on the stop event — the embedding, like the source loop, has no
other delay primitive (`time.sleep` is never called); consequently if
the stop event is already signaled or a concurrent `SvcStop` signals it
during the cycle's wait, the cycle breaks out of the loop at that very
wait. -/
theorem stop_during_wait_exits (st : SvcState) (env : CycleEnv)
    (hstop : env.stopDuringWait = true ∨ st.hWaitStop.signaled = true) :
    waitCount (loopCycle st env).2 = 1 ∧ (loopCycle st env).1 = none := by
  constructor
  · rw [loopCycle_trace, waitCount_append, cycleBody_no_wait]
    simp [waitCount, List.filter]
  · exact loopCycle_stop_exit st env hstop

/-- C8, witness: a stop request arriving during the wait of a cycle
with a live tracked child makes that cycle exit, after its single
wait. -/
theorem stop_during_wait_exits_witness :
    (envStopReq.stopDuringWait = true ∨ stStale.hWaitStop.signaled = true) ∧
    waitCount (loopCycle stStale envStopReq).2 = 1 ∧
    (loopCycle stStale envStopReq).1 = none :=
  ⟨Or.inl rfl, (stop_during_wait_exits stStale envStopReq (Or.inl rfl)).1,
   (stop_during_wait_exits stStale envStopReq (Or.inl rfl)).2⟩

/-! Claim C10. -/

/-- C10: a cycle in which `_get_active_session` resolves to `None`
performs no liveness check, no launch and no termination — its whole
trace is the single SESSION_WAIT-bounded wait on the stop event — and
when no stop is observed the service state (tracked child included) is
returned completely unchanged. -/
theorem no_session_frame (st : SvcState) (env : CycleEnv)
    (hses : _get_active_session env.wtsSession env.sessionRaises = none) :
    (loopCycle st env).2 = [Action.waited WaitKind.sessionWait] ∧
    (env.stopDuringWait = false → st.hWaitStop.signaled = false →
      (loopCycle st env).1 = some st) := by
  have hbody : cycleBody st env = (st, WaitKind.sessionWait, []) := by
    simp [cycleBody, hses]
  constructor
  · rw [loopCycle_trace, hbody]
    rfl
  · intro hw hs
    rw [loopCycle_no_stop st env hw hs, hbody]

/-- C10, witness: with the session query raising and a stale child
tracked, the cycle only waits and hands back the identical state. -/
theorem no_session_frame_witness :
    _get_active_session envNoSession.wtsSession envNoSession.sessionRaises = none ∧
    (loopCycle stStale envNoSession).2 = [Action.waited WaitKind.sessionWait] ∧
    (loopCycle stStale envNoSession).1 = some stStale :=
  ⟨by decide, (no_session_frame stStale envNoSession (by decide)).1,
   (no_session_frame stStale envNoSession (by decide)).2 rfl rfl⟩

end ITAgent
